import Mathlib

/-!
Verification development for the aivory-monitor Rust agent
(src/config.rs, src/capture.rs, src/transport.rs, src/lib.rs).

The Rust code is shallowly embedded: pure functions become Lean functions,
stateful code becomes explicit state passing, `HashMap` becomes an
association list whose observable behaviour is `lk` (lookup) after
`insertKV` (overwriting insert), and the tokio mpsc channel of the
transport becomes the list of messages queued on it.  Nondeterministic
inputs of the environment (backtrace contents, random draw, clock, uuid)
are passed explicitly.
-/

namespace Aivory

/-- `serde_json::Value`. -/
inductive Json where
  | null : Json
  | bool : Bool → Json
  | num : Int → Json
  | str : String → Json
  | arr : List Json → Json
  | obj : List (String × Json) → Json

/-- First-match lookup in an association list (the observable behaviour of
`HashMap::get`). -/
def lk {α : Type} : List (String × α) → String → Option α
  | [], _ => none
  | (k, v) :: rest, q => if q = k then some v else lk rest q

/-- `HashMap::insert`: the new binding overwrites any previous binding of
the same key. -/
def insertKV {α : Type} (m : List (String × α)) (k : String) (v : α) :
    List (String × α) :=
  (k, v) :: m.filter (fun p => !(p.1 == k))

/-- Left-biased choice on `Option` (`a` wins when present). -/
def oor {α : Type} : Option α → Option α → Option α
  | some a, _ => some a
  | none, b => b

/-- `str::starts_with`. -/
def strStartsWith (s pre : String) : Bool := pre.data.isPrefixOf s.data

/-- Is `pat` a contiguous sublist of the given list? -/
def listInfix (pat : List Char) : List Char → Bool
  | [] => pat.isEmpty
  | c :: rest => pat.isPrefixOf (c :: rest) || listInfix pat rest

/-- `str::contains` for a substring pattern. -/
def strContains (s sub : String) : Bool := listInfix sub.data s.data

/-- `str::split("::")`: split on each non-overlapping occurrence of `"::"`,
left to right; always yields at least one piece. -/
def splitDColon : List Char → List Char → List (List Char)
  | [], acc => [acc.reverse]
  | [c], acc => [(c :: acc).reverse]
  | c1 :: c2 :: rest, acc =>
    if c1 = ':' ∧ c2 = ':' then acc.reverse :: splitDColon rest []
    else splitDColon (c2 :: rest) (c1 :: acc)

/-- `str::split(['/', '\\'])`. -/
def splitPathSeps : List Char → List Char → List (List Char)
  | [], acc => [acc.reverse]
  | c :: rest, acc =>
    if c = '/' ∨ c = '\\' then acc.reverse :: splitPathSeps rest []
    else splitPathSeps rest (c :: acc)

/- ---------------------------------------------------------------- -/
/- SHA-256 (the `sha2::Sha256` digest used by `calculate_fingerprint`). -/
/- ---------------------------------------------------------------- -/

/-- 2^32, the modulus of 32-bit words. -/
def w32 : Nat := 4294967296

/-- Right rotation of a 32-bit word. -/
def rotr32 (n x : Nat) : Nat := ((x >>> n) ||| (x <<< (32 - n))) % w32

def bigSigma0 (x : Nat) : Nat := rotr32 2 x ^^^ rotr32 13 x ^^^ rotr32 22 x

def bigSigma1 (x : Nat) : Nat := rotr32 6 x ^^^ rotr32 11 x ^^^ rotr32 25 x

def smallSigma0 (x : Nat) : Nat := rotr32 7 x ^^^ rotr32 18 x ^^^ (x >>> 3)

def smallSigma1 (x : Nat) : Nat := rotr32 17 x ^^^ rotr32 19 x ^^^ (x >>> 10)

/-- The 64 round constants of SHA-256 (decimal). -/
def sha256K : List Nat :=
  [1116352408, 1899447441, 3049323471, 3921009573, 961987163,
   1508970993, 2453635748, 2870763221, 3624381080, 310598401,
   607225278, 1426881987, 1925078388, 2162078206, 2614888103,
   3248222580, 3835390401, 4022224774, 264347078, 604807628,
   770255983, 1249150122, 1555081692, 1996064986, 2554220882,
   2821834349, 2952996808, 3210313671, 3336571891, 3584528711,
   113926993, 338241895, 666307205, 773529912, 1294757372,
   1396182291, 1695183700, 1986661051, 2177026350, 2456956037,
   2730485921, 2820302411, 3259730800, 3345764771, 3516065817,
   3600352804, 4094571909, 275423344, 430227734, 506948616,
   659060556, 883997877, 958139571, 1322822218, 1537002063,
   1747873779, 1955562222, 2024104815, 2227730452, 2361852424,
   2428436474, 2756734187, 3204031479, 3329325298]

/-- The initial hash value of SHA-256 (decimal). -/
def sha256H0 : List Nat :=
  [1779033703, 3144134277, 1013904242, 2773480762,
   1359893119, 2600822924, 528734635, 1541459225]

/-- Big-endian bytes of a number, `k` bytes wide. -/
def toBytesBE : Nat → Nat → List Nat
  | 0, _ => []
  | k + 1, n => toBytesBE k (n / 256) ++ [n % 256]

/-- Group a byte list into big-endian 32-bit words. -/
def bytesToWords : List Nat → List Nat
  | b0 :: b1 :: b2 :: b3 :: rest =>
    (((b0 * 256 + b1) * 256 + b2) * 256 + b3) :: bytesToWords rest
  | _ => []

/-- SHA-256 message padding: a `0x80` byte, then enough zero bytes, then
the bit length as 8 big-endian bytes, so that the total is a whole number
of 64-byte blocks. -/
def padMessage (msg : List Nat) : List Nat :=
  let len := msg.length
  let zeros := (64 + 55 - (len % 64)) % 64
  msg ++ [0x80] ++ List.replicate zeros 0 ++ toBytesBE 8 (len * 8)

/-- Extend the 16 message words to the 64-entry message schedule. -/
def scheduleW (w16 : List Nat) : List Nat :=
  (List.range 48).foldl
    (fun w _ =>
      let n := w.length
      w ++ [(smallSigma1 (w.getD (n - 2) 0) + w.getD (n - 7) 0 +
             smallSigma0 (w.getD (n - 15) 0) + w.getD (n - 16) 0) % w32])
    w16

/-- The eight working variables of the compression function. -/
structure Sha256State where
  a : Nat
  b : Nat
  c : Nat
  d : Nat
  e : Nat
  f : Nat
  g : Nat
  h : Nat

/-- One round of the SHA-256 compression function. -/
def sha256Round (st : Sha256State) (kw : Nat × Nat) : Sha256State :=
  let ch := (st.e &&& st.f) ^^^ ((st.e ^^^ 0xffffffff) &&& st.g)
  let t1 := (st.h + bigSigma1 st.e + ch + kw.1 + kw.2) % w32
  let maj := (st.a &&& st.b) ^^^ (st.a &&& st.c) ^^^ (st.b &&& st.c)
  let t2 := (bigSigma0 st.a + maj) % w32
  { a := (t1 + t2) % w32, b := st.a, c := st.b, d := st.c,
    e := (st.d + t1) % w32, f := st.e, g := st.f, h := st.g }

/-- Compress one 64-byte block into the running hash value. -/
def processBlock (hs : List Nat) (block : List Nat) : List Nat :=
  let w := scheduleW (bytesToWords block)
  let init : Sha256State :=
    ⟨hs.getD 0 0, hs.getD 1 0, hs.getD 2 0, hs.getD 3 0,
     hs.getD 4 0, hs.getD 5 0, hs.getD 6 0, hs.getD 7 0⟩
  let fin := (sha256K.zip w).foldl sha256Round init
  [(hs.getD 0 0 + fin.a) % w32, (hs.getD 1 0 + fin.b) % w32,
   (hs.getD 2 0 + fin.c) % w32, (hs.getD 3 0 + fin.d) % w32,
   (hs.getD 4 0 + fin.e) % w32, (hs.getD 5 0 + fin.f) % w32,
   (hs.getD 6 0 + fin.g) % w32, (hs.getD 7 0 + fin.h) % w32]

/-- Split into 64-byte chunks (fuel-driven structural recursion). -/
def chunks64 : Nat → List Nat → List (List Nat)
  | 0, _ => []
  | _ + 1, [] => []
  | fuel + 1, l => l.take 64 :: chunks64 fuel (l.drop 64)

/-- SHA-256 of a byte sequence, as 32 bytes. -/
def sha256 (msg : List Nat) : List Nat :=
  let padded := padMessage msg
  let hs := (chunks64 padded.length padded).foldl processBlock sha256H0
  hs.foldr (fun h acc => toBytesBE 4 h ++ acc) []

/-- One lower-case hex digit. -/
def hexDigit (n : Nat) : Char :=
  if n < 10 then Char.ofNat (48 + n) else Char.ofNat (87 + n)

/-- `hex::encode`: lower-case hex of a byte sequence. -/
def hexEncodeBytes (l : List Nat) : String :=
  ⟨l.foldr (fun b acc => hexDigit (b / 16) :: hexDigit (b % 16) :: acc) []⟩

/-- UTF-8 encoding of one character. -/
def utf8EncodeChar (c : Char) : List Nat :=
  let n := c.toNat
  if n < 0x80 then [n]
  else if n < 0x800 then
    [0xC0 ||| (n >>> 6), 0x80 ||| (n &&& 0x3F)]
  else if n < 0x10000 then
    [0xE0 ||| (n >>> 12), 0x80 ||| ((n >>> 6) &&& 0x3F), 0x80 ||| (n &&& 0x3F)]
  else
    [0xF0 ||| (n >>> 18), 0x80 ||| ((n >>> 12) &&& 0x3F),
     0x80 ||| ((n >>> 6) &&& 0x3F), 0x80 ||| (n &&& 0x3F)]

/-- UTF-8 bytes of a string (what `Sha256::update` hashes). -/
def utf8Bytes (s : String) : List Nat :=
  s.data.foldr (fun c acc => utf8EncodeChar c ++ acc) []

/- ---------------------------------------------------------------- -/
/- config.rs                                                         -/
/- ---------------------------------------------------------------- -/

/-- `config::RuntimeInfo`. -/
structure RuntimeInfo where
  runtime : String
  runtime_version : String
  platform : String
  arch : String

/-- `config::Config` (config.rs lines 8-29).  `sampling_rate` is the `f64`
rate, modelled as a rational; the claims under scrutiny only use its order
against `0.0` and `1.0`. -/
structure Config where
  api_key : String
  backend_url : String
  environment : String
  sampling_rate : ℚ
  max_capture_depth : Nat
  max_string_length : Nat
  max_collection_size : Nat
  debug : Bool
  hostname : String
  agent_id : String

/-- `Config::should_sample` (config.rs lines 104-112).  The uniform draw
`rand::random::<f64>()` is passed explicitly as `draw`. -/
def Config.should_sample (c : Config) (draw : ℚ) : Bool :=
  if c.sampling_rate ≥ 1 then true
  else if c.sampling_rate ≤ 0 then false
  else decide (draw < c.sampling_rate)

/-- The build-time constants consumed by `Config::runtime_info`
(`CARGO_PKG_VERSION`, `std::env::consts::OS`, `std::env::consts::ARCH`). -/
structure BuildEnv where
  pkg_version : String
  os : String
  arch : String

/-- `Config::runtime_info` (config.rs lines 115-122). -/
def Config.runtime_info (_ : Config) (b : BuildEnv) : RuntimeInfo :=
  { runtime := "rust", runtime_version := b.pkg_version,
    platform := b.os, arch := b.arch }

/- ---------------------------------------------------------------- -/
/- capture.rs                                                        -/
/- ---------------------------------------------------------------- -/

/-- `capture::StackFrame` (capture.rs lines 30-42). -/
structure StackFrame where
  method_name : String
  file_name : Option String
  file_path : Option String
  line_number : Option Nat
  column_number : Option Nat
  is_native : Bool
  source_available : Bool

/-- `capture::Variable` (capture.rs lines 46-59). -/
inductive Variable where
  | mk (name var_type value : String) (is_null is_truncated : Bool)
       (children : Option (List (String × Variable)))
       (array_elements : Option (List Variable))
       (array_length : Option Nat)

/-- `capture::ExceptionCapture` (capture.rs lines 14-26). -/
structure ExceptionCapture where
  id : String
  exception_type : String
  message : String
  fingerprint : String
  stack_trace : List StackFrame
  local_variables : List (String × Variable)
  context : List (String × Json)
  captured_at : String
  agent_id : String
  environment : String
  runtime_info : RuntimeInfo

/-- One resolved symbol of one backtrace frame, as delivered by the
`backtrace` crate: optional demangled name, optional file path, optional
line and column. -/
structure RawSymbol where
  name : Option String
  filename : Option String
  lineno : Option Nat
  colno : Option Nat

/-- One backtrace frame: it may resolve to several (inlined) symbols. -/
abbrev RawFrame := List RawSymbol

/-- The internal-frame filter of `capture_stack_trace`
(capture.rs lines 136-140): the fully qualified name is checked. -/
def isInternalName (n : String) : Bool :=
  strStartsWith n "std::" || strStartsWith n "core::" ||
  strStartsWith n "backtrace::" || strStartsWith n "aivory_monitor::capture"

/-- `capture::extract_function_name` (capture.rs lines 177-185):
keep only the terminal `::`-separated identifier. -/
def extract_function_name (full_name : String) : String :=
  ⟨((splitDColon full_name.data []).getLastD full_name.data)⟩

/-- The per-symbol body of the `capture_stack_trace` loop
(capture.rs lines 129-162): `none` when the symbol is filtered out as
internal, otherwise the produced `StackFrame`. -/
def symbolToFrame (s : RawSymbol) : Option StackFrame :=
  let method_name := s.name.getD "<unknown>"
  if isInternalName method_name then none
  else
    let file_path := s.filename
    let file_name := file_path.map (fun p => ⟨(splitPathSeps p.data []).getLastD []⟩)
    let is_native :=
      (file_path.map (fun p => strContains p ".rustup" || strContains p "registry")).getD true
    some { method_name := extract_function_name method_name,
           file_name := file_name, file_path := file_path,
           line_number := s.lineno, column_number := s.colno,
           is_native := is_native,
           source_available := !is_native && file_path.isSome }

/-- The inner symbol loop of `capture_stack_trace` (capture.rs lines
129-167): push qualifying symbols, stopping as soon as 50 frames are
collected. -/
def pushSymbols : List RawSymbol → List StackFrame → List StackFrame
  | [], acc => acc
  | s :: rest, acc =>
    match symbolToFrame s with
    | none => pushSymbols rest acc
    | some f =>
      let acc2 := acc ++ [f]
      if 50 ≤ acc2.length then acc2 else pushSymbols rest acc2

/-- The outer frame loop of `capture_stack_trace` (capture.rs lines
128-172): stop walking once 50 frames are collected. -/
def walkFrames : List RawFrame → List StackFrame → List StackFrame
  | [], acc => acc
  | fr :: rest, acc =>
    let acc2 := pushSymbols fr acc
    if 50 ≤ acc2.length then acc2 else walkFrames rest acc2

/-- `capture::capture_stack_trace` (capture.rs lines 124-175), applied to
the frames of `Backtrace::new()` (most-recent call first). -/
def capture_stack_trace (bt : List RawFrame) : List StackFrame :=
  walkFrames bt []

/-- `"{}:{}"` formatting of one fingerprint part
(capture.rs lines 199-203). -/
def formatFrame (f : StackFrame) : String :=
  f.method_name ++ ":" ++ Nat.repr (f.line_number.getD 0)

/-- The frame loop of `calculate_fingerprint` (capture.rs lines 190-205):
skip native frames, take at most 5, `added` is the running count. -/
def fpLoop : List StackFrame → Nat → List String
  | [], _ => []
  | f :: rest, added =>
    if 5 ≤ added then []
    else if f.is_native then fpLoop rest added
    else formatFrame f :: fpLoop rest (added + 1)

/-- `Vec::join(":")`. -/
def joinColon : List String → String
  | [] => ""
  | [p] => p
  | p :: rest => p ++ ":" ++ joinColon rest

/-- `capture::calculate_fingerprint` (capture.rs lines 187-211). -/
def calculate_fingerprint (exception_type : String) (stack_trace : List StackFrame) :
    String :=
  let parts := exception_type :: fpLoop stack_trace 0
  hexEncodeBytes ((sha256 (utf8Bytes (joinColon parts))).take 8)

/-- The fingerprint algorithm as worded by the specification (section 4.2):
a list starting with the failure kind, followed by the first 5 non-native
frames formatted as name-colon-line, joined with the fixed delimiter,
hashed, first 8 digest bytes hex-encoded. -/
def fingerprintSpec (failure_kind : String) (frames : List StackFrame) : String :=
  let parts :=
    failure_kind ::
      ((frames.filter (fun f => !f.is_native)).take 5).map formatFrame
  hexEncodeBytes ((sha256 (utf8Bytes (joinColon parts))).take 8)

/-- The per-capture environment inputs: the fresh uuid, the clock readings,
the backtrace at the capture site and the sampling draw. -/
structure CaptureEnv where
  uuid : String
  now_rfc3339 : String
  now_millis : Int
  stack : List RawFrame
  draw : ℚ

namespace Capture

/-- `capture::capture_error` (capture.rs lines 73-96).  `type_name` is the
compile-time `std::any::type_name::<E>()` string and `message` the
`error.to_string()` rendering; both are inputs of the embedding. -/
def capture_error (env : CaptureEnv) (type_name message : String)
    (config : Config) (build : BuildEnv) : ExceptionCapture :=
  let stack_trace := capture_stack_trace env.stack
  let exception_type : String := ⟨(splitDColon type_name.data []).getLastD "Error".data⟩
  let fingerprint := calculate_fingerprint exception_type stack_trace
  { id := env.uuid, exception_type := exception_type, message := message,
    fingerprint := fingerprint, stack_trace := stack_trace,
    local_variables := [], context := [],
    captured_at := env.now_rfc3339,
    agent_id := config.agent_id, environment := config.environment,
    runtime_info := config.runtime_info build }

/-- `capture::capture_panic` (capture.rs lines 99-122). -/
def capture_panic (env : CaptureEnv) (message : String) (location : Option String)
    (config : Config) (build : BuildEnv) : ExceptionCapture :=
  let stack_trace := capture_stack_trace env.stack
  let fingerprint := calculate_fingerprint "panic" stack_trace
  let context0 := insertKV [] "panic" (Json.bool true)
  let context :=
    match location with
    | some loc => insertKV context0 "location" (Json.str loc)
    | none => context0
  { id := env.uuid, exception_type := "panic", message := message,
    fingerprint := fingerprint, stack_trace := stack_trace,
    local_variables := [], context := context,
    captured_at := env.now_rfc3339,
    agent_id := config.agent_id, environment := config.environment,
    runtime_info := config.runtime_info build }

end Capture

/- ---------------------------------------------------------------- -/
/- transport.rs                                                      -/
/- ---------------------------------------------------------------- -/

/-- The payload slot of an outgoing envelope.  `register` and `heartbeat`
payloads are `serde_json::json!` objects; the `exception` payload is the
whole serialized `ExceptionCapture` (serialization of these values never
fails and is injective, so the embedding keeps the structured value). -/
inductive Payload where
  | json : Json → Payload
  | exception : ExceptionCapture → Payload

/-- `transport::OutgoingMessage` (transport.rs lines 19-25). -/
structure OutMsg where
  msg_type : String
  payload : Payload
  timestamp : Int

/-- `transport::IncomingMessage` (transport.rs lines 27-33); a missing
payload defaults to `null`. -/
structure IncomingMessage where
  msg_type : String
  payload : Json

/-- `transport::Connection` (transport.rs lines 14-17).  A live
`mpsc::UnboundedSender` is modelled by `some q` where `q` is the list of
messages queued on the channel, in enqueue order; `none` is the
disconnected state with no live sender. -/
structure Connection where
  sender : Option (List OutMsg)
  connected : Bool

/-- `Connection::new` (transport.rs lines 37-42). -/
def Connection.new : Connection := { sender := none, connected := false }

/-- `Connection::send_exception` (transport.rs lines 231-244): with no live
sender the call silently returns; with a live sender the capture is
serialized as an `"exception"` envelope and enqueued on the unbounded
channel. -/
def Connection.send_exception (s : Connection) (now : Int)
    (capture : ExceptionCapture) : Connection :=
  match s.sender with
  | none => s
  | some q =>
    let msg : OutMsg :=
      { msg_type := "exception", payload := Payload.exception capture,
        timestamp := now }
    { s with sender := some (q ++ [msg]) }

/-- `Connection::disconnect` (transport.rs lines 225-228). -/
def Connection.disconnect (_ : Connection) : Connection :=
  { sender := none, connected := false }

/-- `payload.get(key).and_then(|v| v.as_str())`. -/
def jsonGetStr (j : Json) (k : String) : Option String :=
  match j with
  | Json.obj kvs =>
    match lk kvs k with
    | some (Json.str s) => some s
    | _ => none
  | _ => none

/-- One event delivered by `read.next()` in the message loop of
`connect_once` (transport.rs lines 178-219): a text message that parsed as
`IncomingMessage`, a text message that failed to parse, a close frame, a
read error, or any other frame kind. -/
inductive WsEvent where
  | msg : IncomingMessage → WsEvent
  | badText : WsEvent
  | close : WsEvent
  | readError : WsEvent
  | other : WsEvent

/-- The operator-visible line printed for an inbound backend error
(transport.rs line 199). -/
def backendErrorLine (code message : String) : String :=
  "[AIVory Monitor] Backend error: " ++ code ++ " - " ++ message

/-- The read loop of `connect_once` (transport.rs lines 178-221), over the
inbound event stream, threading the operator-visible log: an `"error"`
message whose code is `auth_error` or `invalid_api_key` makes the attempt
return `Err("Authentication failed")`; every other event either continues
the loop or breaks it with `Ok`. -/
def readLoop : List WsEvent → List String → Except String Unit × List String
  | [], log => (Except.ok (), log)
  | WsEvent.msg m :: rest, log =>
    if m.msg_type = "registered" then readLoop rest log
    else if m.msg_type = "error" then
      let code := (jsonGetStr m.payload "code").getD "unknown"
      let message := (jsonGetStr m.payload "message").getD "Unknown error"
      let log1 := log ++ [backendErrorLine code message]
      if code = "auth_error" ∨ code = "invalid_api_key" then
        (Except.error "Authentication failed",
         log1 ++ ["[AIVory Monitor] Authentication failed"])
      else readLoop rest log1
    else readLoop rest log
  | WsEvent.badText :: rest, log => readLoop rest log
  | WsEvent.close :: _, log => (Except.ok (), log)
  | WsEvent.readError :: _, log => (Except.ok (), log)
  | WsEvent.other :: rest, log => readLoop rest log

/-- `max_reconnect_attempts` (transport.rs line 63). -/
def maxReconnectAttempts : Nat := 10

/-- The backoff delay in seconds computed at transport.rs line 86:
`2u64.pow(reconnect_attempts.min(6))`. -/
def reconnectDelay (attempts : Nat) : Nat := 2 ^ min attempts 6

/-- The waits performed by the reconnect loop of `Connection::connect`
(transport.rs lines 61-95), driven by the outcomes of the successive
`connect_once` calls (`true` = returned `Ok`).  Each iteration resets the
counter to zero on `Ok`, increments it, breaks when it exceeds
`maxReconnectAttempts`, and otherwise sleeps `reconnectDelay counter`
before the next attempt. -/
def reconnectWaits : Nat → List Bool → List Nat
  | _, [] => []
  | counter, ok :: rest =>
    let c := (if ok then 0 else counter) + 1
    if maxReconnectAttempts < c then []
    else reconnectDelay c :: reconnectWaits c rest

/-- The number of `connect_once` calls the reconnect loop makes before
stopping, driven by the same outcome stream. -/
def reconnectAttemptsMade : Nat → List Bool → Nat
  | _, [] => 0
  | counter, ok :: rest =>
    let c := (if ok then 0 else counter) + 1
    if maxReconnectAttempts < c then 1
    else 1 + reconnectAttemptsMade c rest

/-- The operator-visible line printed when the reconnect loop gives up
(transport.rs line 82). -/
def maxAttemptsLine : String := "[AIVory Monitor] Max reconnect attempts reached"

/-- The operator-visible report lines the reconnect loop emits, driven by
the same outcome stream: `maxAttemptsLine` is printed exactly when the
counter exceeds `maxReconnectAttempts`, immediately before the loop
breaks, and never again afterwards. -/
def reconnectReports : Nat → List Bool → List String
  | _, [] => []
  | counter, ok :: rest =>
    let c := (if ok then 0 else counter) + 1
    if maxReconnectAttempts < c then [maxAttemptsLine]
    else reconnectReports c rest

/- ---------------------------------------------------------------- -/
/- lib.rs                                                            -/
/- ---------------------------------------------------------------- -/

/-- `Agent` (lib.rs lines 38-43): configuration, transport connection,
custom context map and user map. -/
structure Agent where
  config : Config
  connection : Connection
  custom_context : List (String × Json)
  user : List (String × String)

/-- `Agent::new` (lib.rs lines 47-54). -/
def Agent.new (config : Config) : Agent :=
  { config := config, connection := Connection.new,
    custom_context := [], user := [] }

/-- `serde_json::json!(user)`: the user `HashMap<String, String>` as a JSON
object. -/
def userToJson (u : List (String × String)) : Json :=
  Json.obj (u.map (fun p => (p.1, Json.str p.2)))

/-- The record built and context-merged by `Agent::capture_error`
(lib.rs lines 85-108): the capture.rs record, whose empty context is then
overwritten by the stored custom context, then the `"user"` binding (only
when the user map is non-empty), then the caller-supplied context. -/
def Agent.buildMerged (a : Agent) (env : CaptureEnv) (type_name message : String)
    (context : Option (List (String × Json))) (build : BuildEnv) :
    ExceptionCapture :=
  let exc := Capture.capture_error env type_name message a.config build
  let ctx1 := a.custom_context.foldl (fun m p => insertKV m p.1 p.2) exc.context
  let ctx2 := if a.user.isEmpty then ctx1 else insertKV ctx1 "user" (userToJson a.user)
  let ctx3 := (context.getD []).foldl (fun m p => insertKV m p.1 p.2) ctx2
  { exc with context := ctx3 }

/-- `Agent::capture_error` (lib.rs lines 80-112): an unsampled event
returns at once with no record and no state change; a sampled event builds
the merged record and hands it to `Connection::send_exception`.  The
returned option is the record that was built (`none` when sampling
rejected the event). -/
def Agent.capture_error (a : Agent) (env : CaptureEnv) (type_name message : String)
    (context : Option (List (String × Json))) (build : BuildEnv) :
    Agent × Option ExceptionCapture :=
  if a.config.should_sample env.draw then
    let exc := a.buildMerged env type_name message context build
    ({ a with connection := a.connection.send_exception env.now_millis exc }, some exc)
  else (a, none)

/-- `Agent::set_context` (lib.rs lines 115-118): wholesale replacement. -/
def Agent.set_context (a : Agent) (context : List (String × Json)) : Agent :=
  { a with custom_context := context }

/-- `Agent::set_user` (lib.rs lines 121-133): clear the user map, then
insert exactly the supplied fields. -/
def Agent.set_user (a : Agent) (id email username : Option String) : Agent :=
  let u : List (String × String) := []
  let u := match id with | some i => insertKV u "id" i | none => u
  let u := match email with | some e => insertKV u "email" e | none => u
  let u := match username with | some n => insertKV u "username" n | none => u
  { a with user := u }

/-- The process-wide `AGENT: OnceCell<Arc<Agent>>` slot (lib.rs line 35). -/
structure GlobalState where
  agent : Option Agent

namespace Global

/-- Crate-level `capture_error` (lib.rs lines 182-186): a no-op returning
no record when the global agent slot is empty. -/
def capture_error (g : GlobalState) (env : CaptureEnv) (type_name message : String)
    (build : BuildEnv) : GlobalState × Option ExceptionCapture :=
  match g.agent with
  | none => (g, none)
  | some a =>
    let r := a.capture_error env type_name message none build
    ({ agent := some r.1 }, r.2)

/-- Crate-level `capture_error_with_context` (lib.rs lines 189-196). -/
def capture_error_with_context (g : GlobalState) (env : CaptureEnv)
    (type_name message : String) (context : List (String × Json))
    (build : BuildEnv) : GlobalState × Option ExceptionCapture :=
  match g.agent with
  | none => (g, none)
  | some a =>
    let r := a.capture_error env type_name message (some context) build
    ({ agent := some r.1 }, r.2)

/-- Crate-level `set_context` (lib.rs lines 199-203). -/
def set_context (g : GlobalState) (context : List (String × Json)) : GlobalState :=
  match g.agent with
  | none => g
  | some a => { agent := some (a.set_context context) }

/-- Crate-level `set_user` (lib.rs lines 206-210). -/
def set_user (g : GlobalState) (id email username : Option String) : GlobalState :=
  match g.agent with
  | none => g
  | some a => { agent := some (a.set_user id email username) }

end Global

/- ---------------------------------------------------------------- -/
/- Concrete inputs used by the witness theorems                      -/
/- ---------------------------------------------------------------- -/

/-- A concrete configuration with the given sampling rate. -/
def cfgW (rate : ℚ) : Config :=
  { api_key := "key", backend_url := "wss://example/ws", environment := "test",
    sampling_rate := rate, max_capture_depth := 10, max_string_length := 1000,
    max_collection_size := 100, debug := false, hostname := "host",
    agent_id := "agent-1" }

/-- Concrete build-time constants. -/
def buildW : BuildEnv := { pkg_version := "1.0.1", os := "linux", arch := "x86_64" }

/-- A concrete capture environment with an empty backtrace. -/
def envW : CaptureEnv :=
  { uuid := "u-1", now_rfc3339 := "2026-01-01T00:00:00+00:00", now_millis := 1000,
    stack := [], draw := 1 / 2 }

/-- A symbol that qualifies for the stack walk: named `f`, resolved to an
application source file. -/
def symW : RawSymbol :=
  { name := some "f", filename := some "/app/main.rs", lineno := some 3, colno := none }

/-- A backtrace with 60 one-symbol frames, all qualifying. -/
def btW : List RawFrame := List.replicate 60 [symW]

/-- A concrete record, used where a record value is needed. -/
def excW : ExceptionCapture :=
  { id := "1", exception_type := "E", message := "m", fingerprint := "f",
    stack_trace := [], local_variables := [], context := [], captured_at := "t",
    agent_id := "agent-1", environment := "test",
    runtime_info := { runtime := "rust", runtime_version := "1.0.1",
                      platform := "linux", arch := "x86_64" } }

/-- The agent of the end-to-end scenario: sampling rate 1, registered
transport with a live, empty send queue, no stored context, no user. -/
def agentC1 : Agent :=
  { config := cfgW 1, connection := { sender := some [], connected := true },
    custom_context := [], user := [] }

/-- The record the end-to-end scenario builds. -/
def recordC1 : ExceptionCapture :=
  agentC1.buildMerged envW "IoError" "disk full" (some [("retry", Json.num 3)]) buildW

/-- An agent whose configuration never samples. -/
def agentZero : Agent :=
  { config := cfgW 0, connection := { sender := some [], connected := true },
    custom_context := [], user := [] }

/-- The agent of the context-precedence scenario: custom context `a = 1`,
user `id = "u1"`. -/
def agentC5 : Agent :=
  { config := cfgW 1, connection := Connection.new,
    custom_context := [("a", Json.num 1)], user := [("id", "u1")] }

/-- An inbound error message carrying an authentication failure code. -/
def msgAuth : IncomingMessage :=
  { msg_type := "error",
    payload := Json.obj [("code", Json.str "invalid_api_key"),
                         ("message", Json.str "bad key")] }

/-- An inbound error message carrying a non-authentication code. -/
def msgOther : IncomingMessage :=
  { msg_type := "error",
    payload := Json.obj [("code", Json.str "rate_limited"),
                         ("message", Json.str "slow down")] }

/- ---------------------------------------------------------------- -/
/- Helper lemmas                                                     -/
/- ---------------------------------------------------------------- -/

theorem lk_filter_ne {α : Type} (m : List (String × α)) (k a : String) (h : k ≠ a) :
    lk (m.filter (fun p => !(p.1 == a))) k = lk m k := by
  induction m with
  | nil => rfl
  | cons p rest ih =>
    obtain ⟨pk, pv⟩ := p
    by_cases hp : pk = a
    · have hk : ¬(k = pk) := fun hkk => h (hkk.trans hp)
      simp [List.filter_cons, hp, lk, h, hk, ih]
    · by_cases hk : k = pk
      · simp [List.filter_cons, hp, lk, hk]
      · simp [List.filter_cons, hp, lk, hk, ih]

theorem lk_insertKV {α : Type} (m : List (String × α)) (a k : String) (v : α) :
    lk (insertKV m a v) k = if k = a then some v else lk m k := by
  by_cases h : k = a
  · simp [insertKV, lk, h]
  · simp [insertKV, lk, h, lk_filter_ne m k a h]

theorem lk_eq_none_of_not_mem {α : Type} (m : List (String × α)) (k : String)
    (h : k ∉ m.map Prod.fst) : lk m k = none := by
  induction m with
  | nil => rfl
  | cons p rest ih =>
    obtain ⟨pk, pv⟩ := p
    simp only [List.map_cons, List.mem_cons, not_or] at h
    simp [lk, h.1, ih h.2]

theorem lk_foldl_insert {α : Type} (m : List (String × α)) (init : List (String × α))
    (k : String) (h : (m.map Prod.fst).Nodup) :
    lk (m.foldl (fun acc p => insertKV acc p.1 p.2) init) k =
      oor (lk m k) (lk init k) := by
  induction m generalizing init with
  | nil => simp [lk, oor]
  | cons p rest ih =>
    obtain ⟨pk, pv⟩ := p
    simp only [List.map_cons, List.nodup_cons] at h
    rw [List.foldl_cons, ih _ h.2, lk_insertKV]
    by_cases hk : k = pk
    · have hmem : k ∉ rest.map Prod.fst := by
        intro hn
        exact h.1 (hk ▸ hn)
      rw [if_pos hk, lk_eq_none_of_not_mem rest k hmem]
      simp [lk, hk, oor]
    · rw [if_neg hk]
      simp [lk, hk]

theorem fpLoop_eq_take (st : List StackFrame) :
    ∀ a, a ≤ 5 →
      fpLoop st a = ((st.filter (fun f => !f.is_native)).take (5 - a)).map formatFrame := by
  induction st with
  | nil => intro a _; simp [fpLoop]
  | cons f rest ih =>
    intro a ha
    by_cases h5 : 5 ≤ a
    · have : a = 5 := le_antisymm ha h5
      subst this
      simp [fpLoop]
    · have ha' : a < 5 := lt_of_not_ge h5
      by_cases hn : f.is_native
      · simp [fpLoop, h5, hn, List.filter_cons, ih a ha]
      · have h1 : 1 ≤ 5 - a := by omega
        have h2 : 5 - a = (5 - (a + 1)) + 1 := by omega
        simp only [fpLoop, if_neg h5, if_neg hn, List.filter_cons, hn,
          Bool.not_eq_true, Bool.not_false, if_pos, ih (a + 1) (by omega)]
        rw [h2]
        simp [List.take_cons, List.map_cons]

theorem pushSymbols_eq (syms : List RawSymbol) :
    ∀ acc : List StackFrame, acc.length < 50 →
      pushSymbols syms acc = (acc ++ syms.filterMap symbolToFrame).take 50 := by
  induction syms with
  | nil =>
    intro acc h
    simp [pushSymbols, List.take_of_length_le (le_of_lt h)]
  | cons s rest ih =>
    intro acc h
    simp only [pushSymbols, List.filterMap_cons]
    cases hs : symbolToFrame s with
    | none => simpa using ih acc h
    | some f =>
      by_cases h50 : 50 ≤ (acc ++ [f]).length
      · have hlen : (acc ++ [f]).length = 50 := by
          simp only [List.length_append, List.length_singleton] at h50 ⊢
          omega
        simp only [if_pos h50]
        rw [show acc ++ f :: rest.filterMap symbolToFrame =
              (acc ++ [f]) ++ rest.filterMap symbolToFrame by simp]
        rw [List.take_append_eq_append_take, hlen,
            List.take_of_length_le (le_of_eq hlen)]
        simp
      · have hlt : (acc ++ [f]).length < 50 := lt_of_not_ge h50
        simp only [if_neg h50]
        rw [ih (acc ++ [f]) hlt]
        simp

theorem walkFrames_eq (bt : List RawFrame) :
    ∀ acc : List StackFrame, acc.length < 50 →
      walkFrames bt acc = (acc ++ bt.flatten.filterMap symbolToFrame).take 50 := by
  induction bt with
  | nil =>
    intro acc h
    simp [walkFrames, List.take_of_length_le (le_of_lt h)]
  | cons fr rest ih =>
    intro acc h
    simp only [walkFrames]
    rw [pushSymbols_eq fr acc h]
    by_cases h50 : 50 ≤ ((acc ++ fr.filterMap symbolToFrame).take 50).length
    · have hL : 50 ≤ (acc ++ fr.filterMap symbolToFrame).length := by
        rw [List.length_take] at h50
        exact le_trans h50 (min_le_right _ _)
      simp only [if_pos h50]
      rw [List.flatten_cons, List.filterMap_append,
          show acc ++ (fr.filterMap symbolToFrame ++ rest.flatten.filterMap symbolToFrame) =
            (acc ++ fr.filterMap symbolToFrame) ++ rest.flatten.filterMap symbolToFrame
            by simp,
          List.take_append_of_le_length hL]
    · have hlen : (acc ++ fr.filterMap symbolToFrame).length < 50 := by
        by_contra hge
        push_neg at hge
        apply h50
        rw [List.length_take]
        exact le_min le_rfl hge
      rw [if_neg h50, List.take_of_length_le (le_of_lt hlen), ih _ hlen,
          List.flatten_cons, List.filterMap_append, List.append_assoc]

/- ---------------------------------------------------------------- -/
/- Claim theorems                                                    -/
/- ---------------------------------------------------------------- -/

/-- C2: `calculate_fingerprint` is a pure deterministic function of the
failure kind and the frame sequence, and it equals the specified
algorithm: failure kind followed by the first 5 non-native frames
formatted as name-colon-line-or-0, joined with the fixed `":"` delimiter,
SHA-256 hashed, first 8 digest bytes hex-encoded. -/
theorem c2_fingerprint_deterministic_and_matches_spec (exception_type : String)
    (stack_trace : List StackFrame) :
    calculate_fingerprint exception_type stack_trace =
        calculate_fingerprint exception_type stack_trace ∧
    calculate_fingerprint exception_type stack_trace =
        fingerprintSpec exception_type stack_trace := by
  refine ⟨rfl, ?_⟩
  unfold calculate_fingerprint fingerprintSpec
  rw [fpLoop_eq_take stack_trace 0 (by omega)]

/-- C3: symbolization produces at most 50 frames; the result is exactly
the first 50 entries of the qualifying-symbol stream in walk order (the
cap cuts collection short rather than truncating afterwards); a stack
with at least 50 qualifying symbols yields exactly 50 frames. -/
theorem c3_frame_cap (bt : List RawFrame) :
    (capture_stack_trace bt).length ≤ 50 ∧
    capture_stack_trace bt = (bt.flatten.filterMap symbolToFrame).take 50 ∧
    (50 ≤ (bt.flatten.filterMap symbolToFrame).length →
      (capture_stack_trace bt).length = 50) := by
  have h := walkFrames_eq bt [] (by simp)
  simp only [List.nil_append] at h
  refine ⟨?_, ?_, ?_⟩
  · rw [capture_stack_trace, h, List.length_take]
    exact min_le_left _ _
  · rw [capture_stack_trace, h]
  · intro hge
    rw [capture_stack_trace, h, List.length_take]
    exact min_eq_left hge

/-- C3 witness: a 60-frame backtrace of qualifying symbols yields exactly
50 frames. -/
theorem c3_frame_cap_witness :
    50 ≤ (btW.flatten.filterMap symbolToFrame).length ∧
    (capture_stack_trace btW).length = 50 := by
  have h : 50 ≤ (btW.flatten.filterMap symbolToFrame).length := by decide
  exact ⟨h, (c3_frame_cap btW).2.2 h⟩

/-- C4: a sampling rate at least 1 makes `should_sample` answer `true` for
every draw and every capture call build a record; a rate at most 0 makes
`should_sample` answer `false` for every draw and every capture call
return at once with no record, no transport call and no state change. -/
theorem c4_sampling_boundaries (a : Agent) (draw : ℚ) (env : CaptureEnv)
    (type_name message : String) (context : Option (List (String × Json)))
    (build : BuildEnv) :
    (1 ≤ a.config.sampling_rate → a.config.should_sample draw = true) ∧
    (a.config.sampling_rate ≤ 0 → a.config.should_sample draw = false) ∧
    (1 ≤ a.config.sampling_rate →
      (a.capture_error env type_name message context build).2.isSome = true) ∧
    (a.config.sampling_rate ≤ 0 →
      a.capture_error env type_name message context build = (a, none)) := by
  have hTrue : ∀ d : ℚ, 1 ≤ a.config.sampling_rate →
      a.config.should_sample d = true := by
    intro d h1
    simp [Config.should_sample, h1]
  have hFalse : ∀ d : ℚ, a.config.sampling_rate ≤ 0 →
      a.config.should_sample d = false := by
    intro d h0
    have hn : ¬(a.config.sampling_rate ≥ 1) := by
      intro hge
      linarith
    simp [Config.should_sample, hn, h0]
  refine ⟨hTrue draw, hFalse draw, ?_, ?_⟩
  · intro h1
    simp [Agent.capture_error, hTrue env.draw h1]
  · intro h0
    simp [Agent.capture_error, hFalse env.draw h0]

/-- An agent whose configuration always samples, used by the C4 witness. -/
def agentOne : Agent :=
  { config := cfgW 1, connection := Connection.new, custom_context := [], user := [] }

/-- C4 witness: the boundary behaviours at the concrete rates 1 and 0. -/
theorem c4_sampling_boundaries_witness :
    agentOne.config.should_sample (1 / 2) = true ∧
    agentZero.config.should_sample (1 / 2) = false ∧
    (agentOne.capture_error envW "E" "m" none buildW).2.isSome = true ∧
    agentZero.capture_error envW "E" "m" none buildW = (agentZero, none) := by
  have h1 : (1 : ℚ) ≤ agentOne.config.sampling_rate := by norm_num [agentOne, cfgW]
  have h0 : agentZero.config.sampling_rate ≤ 0 := by norm_num [agentZero, cfgW]
  exact ⟨(c4_sampling_boundaries agentOne (1 / 2) envW "E" "m" none buildW).1 h1,
         (c4_sampling_boundaries agentZero (1 / 2) envW "E" "m" none buildW).2.1 h0,
         (c4_sampling_boundaries agentOne (1 / 2) envW "E" "m" none buildW).2.2.1 h1,
         (c4_sampling_boundaries agentZero (1 / 2) envW "E" "m" none buildW).2.2.2 h0⟩

/-- C6: after `set_user`, the user map holds exactly the supplied fields:
each of `id`, `email`, `username` is looked up to exactly the supplied
optional value, every other key is absent, and the prior map is gone
(the result does not depend on it). -/
theorem c6_set_user_replaces (a : Agent) (id email username : Option String) :
    lk (a.set_user id email username).user "id" = id ∧
    lk (a.set_user id email username).user "email" = email ∧
    lk (a.set_user id email username).user "username" = username ∧
    ∀ k : String, ¬(k = "id" ∨ k = "email" ∨ k = "username") →
      lk (a.set_user id email username).user k = none := by
  cases id <;> cases email <;> cases username <;>
    refine ⟨by rfl, by rfl, by rfl, ?_⟩ <;>
    · intro k hk
      push_neg at hk
      simp [Agent.set_user, lk_insertKV, lk, hk.1, hk.2.1, hk.2.2]

/-- An agent holding a fully populated user map, used by the C6 witness. -/
def agentC6 : Agent :=
  (Agent.new (cfgW 1)).set_user (some "i0") (some "e0") (some "n0")

/-- C6 witness: a `set_user` call supplying only an email, after a call
that set all three fields, leaves a user map holding only `email`. -/
theorem c6_set_user_replaces_witness :
    lk (agentC6.set_user none (some "em") none).user "email" = some "em" ∧
    lk (agentC6.set_user none (some "em") none).user "id" = none ∧
    lk (agentC6.set_user none (some "em") none).user "username" = none ∧
    lk (agentC6.set_user none (some "em") none).user "other" = none := by
  exact ⟨(c6_set_user_replaces agentC6 none (some "em") none).2.1,
         (c6_set_user_replaces agentC6 none (some "em") none).1,
         (c6_set_user_replaces agentC6 none (some "em") none).2.2.1,
         (c6_set_user_replaces agentC6 none (some "em") none).2.2.2 "other" (by decide)⟩

/-- C8: handing a record to `send_exception` while the transport has no
live sender is a silent no-op: the state is returned unchanged, so nothing
is enqueued, nothing ever reaches the wire for that record, and no error
is reported. -/
theorem c8_drop_while_disconnected (s : Connection) (now : Int)
    (capture : ExceptionCapture) (h : s.sender = none) :
    s.send_exception now capture = s := by
  unfold Connection.send_exception
  rw [h]

/-- C8 witness: sending on a freshly created (disconnected) connection
changes nothing. -/
theorem c8_drop_while_disconnected_witness :
    Connection.new.send_exception 0 excW = Connection.new :=
  c8_drop_while_disconnected Connection.new 0 excW rfl

/-- C10: before the global agent slot is filled, the crate-level entry
points return normally as no-ops: no record is built, nothing is
enqueued, and the global state is unchanged. -/
theorem c10_noop_before_init (g : GlobalState) (env : CaptureEnv)
    (type_name message : String) (context : List (String × Json))
    (id email username : Option String) (build : BuildEnv)
    (h : g.agent = none) :
    Global.capture_error g env type_name message build = (g, none) ∧
    Global.capture_error_with_context g env type_name message context build
      = (g, none) ∧
    Global.set_context g context = g ∧
    Global.set_user g id email username = g := by
  obtain ⟨ag⟩ := g
  simp only [GlobalState.mk.injEq] at h
  subst h
  exact ⟨rfl, rfl, rfl, rfl⟩

/-- C10 witness: the four entry points on the empty global slot. -/
theorem c10_noop_before_init_witness :
    Global.capture_error ⟨none⟩ envW "E" "m" buildW = (⟨none⟩, none) ∧
    Global.capture_error_with_context ⟨none⟩ envW "E" "m" [] buildW
      = (⟨none⟩, none) ∧
    Global.set_context ⟨none⟩ [] = ⟨none⟩ ∧
    Global.set_user ⟨none⟩ none none none = ⟨none⟩ :=
  c10_noop_before_init ⟨none⟩ envW "E" "m" [] none none none buildW rfl

theorem oor_none_right {α : Type} (x : Option α) : oor x none = x := by
  cases x <;> rfl

/-- C5: on a sampled capture, the record context looks up, at every key,
first to the caller-supplied explicit context, then to the `"user"`
binding (present only when the stored user map is non-empty), then to the
stored custom context — i.e. the context is the custom map overwritten by
the user binding overwritten by the explicit context, later writes
winning. -/
theorem c5_context_precedence (a : Agent) (env : CaptureEnv)
    (type_name message : String) (E : List (String × Json)) (build : BuildEnv)
    (k : String)
    (hs : a.config.should_sample env.draw = true)
    (hc : (a.custom_context.map Prod.fst).Nodup)
    (he : (E.map Prod.fst).Nodup) :
    ((a.capture_error env type_name message (some E) build).2.map
        (fun e => lk e.context k)) =
      some (oor (lk E k)
        (oor (if k = "user" ∧ a.user ≠ [] then some (userToJson a.user) else none)
             (lk a.custom_context k))) := by
  have hbuild : (a.capture_error env type_name message (some E) build).2 =
      some (a.buildMerged env type_name message (some E) build) := by
    simp [Agent.capture_error, hs]
  rw [hbuild, Option.map_some']
  congr 1
  show lk (a.buildMerged env type_name message (some E) build).context k = _
  simp only [Agent.buildMerged, Capture.capture_error, Option.getD_some]
  rw [lk_foldl_insert E _ k he]
  congr 1
  by_cases hu : a.user.isEmpty
  · have hnil : a.user = [] := List.isEmpty_iff.mp hu
    rw [if_pos hu, if_neg (by simp [hnil]), lk_foldl_insert _ _ k hc]
    show oor (lk a.custom_context k) (lk [] k) = oor none (lk a.custom_context k)
    rw [show lk ([] : List (String × Json)) k = none from rfl, oor_none_right]
    rfl
  · have hne : a.user ≠ [] := by
      intro hnil
      exact hu (by simp [hnil])
    rw [if_neg hu, lk_insertKV]
    by_cases hk : k = "user"
    · rw [if_pos hk, if_pos ⟨hk, hne⟩]
      rfl
    · rw [if_neg hk, if_neg (by intro hand; exact hk hand.1),
          lk_foldl_insert _ _ k hc]
      show oor (lk a.custom_context k) (lk [] k) = oor none (lk a.custom_context k)
      rw [show lk ([] : List (String × Json)) k = none from rfl, oor_none_right]
      rfl

/-- C5 witness: custom context `a = 1`, user `id = "u1"`, explicit context
`a = 2` yield a record context with `a == 2` and a `"user"` binding whose
`id` is `"u1"`. -/
theorem c5_context_precedence_witness :
    agentC5.config.should_sample envW.draw = true ∧
    ((agentC5.capture_error envW "E" "m" (some [("a", Json.num 2)]) buildW).2.map
        (fun e => lk e.context "a")) = some (some (Json.num 2)) ∧
    ((agentC5.capture_error envW "E" "m" (some [("a", Json.num 2)]) buildW).2.map
        (fun e => lk e.context "user")) =
      some (some (Json.obj [("id", Json.str "u1")])) := by
  have hs : agentC5.config.should_sample envW.draw = true := by decide
  have hc : ((agentC5.custom_context).map Prod.fst).Nodup := by decide
  have he : (([("a", Json.num 2)] : List (String × Json)).map Prod.fst).Nodup := by
    decide
  refine ⟨hs, ?_, ?_⟩
  · rw [c5_context_precedence agentC5 envW "E" "m" [("a", Json.num 2)] buildW "a"
          hs hc he]
    rfl
  · rw [c5_context_precedence agentC5 envW "E" "m" [("a", Json.num 2)] buildW "user"
          hs hc he]
    rfl

/-- C1: while the transport holds a live sender (the `Registered` state),
a sampled capture enqueues exactly one message at the tail of the
unbounded send queue: the merged record serialized as an `"exception"`
envelope. -/
theorem c1_registered_capture_enqueues_exception (a : Agent) (env : CaptureEnv)
    (type_name message : String) (context : Option (List (String × Json)))
    (build : BuildEnv) (q : List OutMsg)
    (hq : a.connection.sender = some q)
    (hs : a.config.should_sample env.draw = true) :
    (a.capture_error env type_name message context build).1.connection.sender =
      some (q ++ [{ msg_type := "exception",
                    payload :=
                      Payload.exception (a.buildMerged env type_name message context build),
                    timestamp := env.now_millis }]) := by
  simp [Agent.capture_error, hs, Connection.send_exception, hq]

/-- C1 witness: the end-to-end scenario — sampling rate 1, live empty
queue, failure `IoError` with message `"disk full"` and explicit context
`retry = 3` — enqueues one `"exception"` envelope whose payload record
has `exception_type == "IoError"`, `message == "disk full"` and
`context.retry == 3`. -/
theorem c1_registered_capture_enqueues_exception_witness :
    agentC1.connection.sender = some [] ∧
    agentC1.config.should_sample envW.draw = true ∧
    (agentC1.capture_error envW "IoError" "disk full"
        (some [("retry", Json.num 3)]) buildW).1.connection.sender =
      some [{ msg_type := "exception", payload := Payload.exception recordC1,
              timestamp := envW.now_millis }] ∧
    recordC1.exception_type = "IoError" ∧
    recordC1.message = "disk full" ∧
    lk recordC1.context "retry" = some (Json.num 3) := by
  have hs : agentC1.config.should_sample envW.draw = true := by decide
  refine ⟨rfl, hs, ?_, by rfl, by rfl, by rfl⟩
  have h := c1_registered_capture_enqueues_exception agentC1 envW "IoError"
    "disk full" (some [("retry", Json.num 3)]) buildW [] rfl hs
  exact h

/-- C9: an inbound `"error"` message whose code is `auth_error` or
`invalid_api_key` makes the read loop return at once with the fatal
`Authentication failed` error for this connection attempt, after logging
the operator-visible authentication-failure line; an `"error"` message
with any other code logs the backend error and continues the loop without
terminating the connection. -/
theorem c9_auth_error_fatal (m : IncomingMessage) (rest : List WsEvent)
    (log : List String) (he : m.msg_type = "error") :
    (((jsonGetStr m.payload "code").getD "unknown" = "auth_error" ∨
      (jsonGetStr m.payload "code").getD "unknown" = "invalid_api_key") →
        readLoop (WsEvent.msg m :: rest) log =
          (Except.error "Authentication failed",
           log ++ [backendErrorLine ((jsonGetStr m.payload "code").getD "unknown")
                     ((jsonGetStr m.payload "message").getD "Unknown error"),
                   "[AIVory Monitor] Authentication failed"])) ∧
    (¬((jsonGetStr m.payload "code").getD "unknown" = "auth_error" ∨
       (jsonGetStr m.payload "code").getD "unknown" = "invalid_api_key") →
        readLoop (WsEvent.msg m :: rest) log =
          readLoop rest
            (log ++ [backendErrorLine ((jsonGetStr m.payload "code").getD "unknown")
                       ((jsonGetStr m.payload "message").getD "Unknown error")])) := by
  have hne : ¬(m.msg_type = "registered") := by
    rw [he]
    decide
  constructor
  · intro hc
    simp [readLoop, hne, he, hc]
  · intro hc
    simp [readLoop, hne, he, hc]

/-- C9 witness: an `invalid_api_key` error message ends the attempt with
the fatal error and the logged authentication-failure line; a
`rate_limited` error message only logs and the loop runs on to a normal
end. -/
theorem c9_auth_error_fatal_witness :
    readLoop [WsEvent.msg msgAuth] [] =
      (Except.error "Authentication failed",
       [backendErrorLine "invalid_api_key" "bad key",
        "[AIVory Monitor] Authentication failed"]) ∧
    readLoop [WsEvent.msg msgOther] [] =
      (Except.ok (), [backendErrorLine "rate_limited" "slow down"]) := by
  constructor
  · exact (c9_auth_error_fatal msgAuth [] [] rfl).1 (Or.inr rfl)
  · exact (c9_auth_error_fatal msgOther [] [] rfl).2 (by decide)

theorem reconnectWaits_replicate_false :
    ∀ n c : Nat, c ≤ 10 →
      reconnectWaits c (List.replicate n false) =
        (List.range (min n (10 - c))).map (fun i => 2 ^ min (c + 1 + i) 6) := by
  intro n
  induction n with
  | zero => intro c _; simp [reconnectWaits]
  | succ n ih =>
    intro c hc
    rw [List.replicate_succ]
    simp only [reconnectWaits, Bool.false_eq_true, if_false]
    by_cases h10 : maxReconnectAttempts < c + 1
    · have hc10 : c = 10 := by
        simp only [maxReconnectAttempts] at h10
        omega
      subst hc10
      rw [if_pos h10]
      simp
    · have hc' : c + 1 ≤ 10 := by
        simp only [maxReconnectAttempts] at h10
        omega
      rw [if_neg h10, ih (c + 1) hc']
      have h1 : min (n + 1) (10 - c) = min n (10 - (c + 1)) + 1 := by omega
      rw [h1, List.range_succ_eq_map, List.map_cons, List.map_map]
      have h2 : c + 1 + 0 = c + 1 := by omega
      rw [h2]
      have h3 : ((fun i => 2 ^ min (c + 1 + i) 6) ∘ Nat.succ) =
          fun i => 2 ^ min (c + 1 + 1 + i) 6 := by
        funext i
        simp only [Function.comp]
        congr 2
        omega
      rw [h3]
      rfl

theorem reconnectAttemptsMade_replicate_false :
    ∀ n c : Nat, c ≤ 10 →
      reconnectAttemptsMade c (List.replicate n false) = min n (11 - c) := by
  intro n
  induction n with
  | zero => intro c _; simp [reconnectAttemptsMade]
  | succ n ih =>
    intro c hc
    rw [List.replicate_succ]
    simp only [reconnectAttemptsMade, Bool.false_eq_true, if_false]
    by_cases h10 : maxReconnectAttempts < c + 1
    · have hc10 : c = 10 := by
        simp only [maxReconnectAttempts] at h10
        omega
      subst hc10
      rw [if_pos h10]
      omega
    · have hc' : c + 1 ≤ 10 := by
        simp only [maxReconnectAttempts] at h10
        omega
      rw [if_neg h10, ih (c + 1) hc']
      omega

theorem reconnectReports_replicate_false :
    ∀ n c : Nat, c ≤ 10 →
      reconnectReports c (List.replicate n false) =
        if 11 - c ≤ n then [maxAttemptsLine] else [] := by
  intro n
  induction n with
  | zero =>
    intro c hc
    rw [List.replicate, reconnectReports, if_neg (by omega)]
  | succ n ih =>
    intro c hc
    rw [List.replicate_succ]
    simp only [reconnectReports, Bool.false_eq_true, if_false]
    by_cases h10 : maxReconnectAttempts < c + 1
    · have hc10 : c = 10 := by
        simp only [maxReconnectAttempts] at h10
        omega
      subst hc10
      rw [if_pos h10, if_pos (by omega)]
    · have hc' : c + 1 ≤ 10 := by
        simp only [maxReconnectAttempts] at h10
        omega
      rw [if_neg h10, ih (c + 1) hc']
      by_cases hn : 11 - c ≤ n + 1
      · rw [if_pos (by omega), if_pos hn]
      · rw [if_neg (by omega), if_neg hn]

/-- C7 counterexample: from a fresh start, ten consecutive connection
failures do not stop the transport — an eleventh attempt is made (the
loop stops only when the counter exceeds 10); and the wait after the
single failure following a successful connection is 4 time-units, not
the `min(2^1, 64) = 2` demanded by a counter reset to zero by the
success and incremented only by the failure. -/
theorem c7_backoff_counterexample :
    (reconnectAttemptsMade 0 (List.replicate 12 false) = 11 ∧
     ¬(reconnectAttemptsMade 0 (List.replicate 12 false) ≤ 10)) ∧
    (reconnectWaits 0 [true, false] = [2, 4] ∧
     ¬(reconnectWaits 0 [true, false] = [2, 2])) := by
  decide

/-- C7 amended: the reconnect loop increments its counter once per loop
iteration — after resetting it to zero when that iteration's connection
attempt returned successfully — waits `min(2^counter, 2^6)` time-units
before the next attempt, and stops permanently once the counter exceeds
10, reporting the condition with the operator-visible max-reconnect-
attempts line exactly once, at the moment it stops.  Hence from a fresh
start the n-th consecutive failure is followed by a wait of
`min(2^n, 64)`, the waits are non-decreasing, and the loop stops after 11
consecutive failed attempts from a fresh start (reporting once then,
never before) and after 10 consecutive failed attempts following a
successful connection (likewise reporting once). -/
theorem c7_backoff_amended (n : Nat) :
    reconnectWaits 0 (List.replicate n false) =
      (List.range (min n 10)).map (fun i => 2 ^ min (i + 1) 6) ∧
    List.Pairwise (· ≤ ·) (reconnectWaits 0 (List.replicate n false)) ∧
    reconnectAttemptsMade 0 (List.replicate n false) = min n 11 ∧
    (∀ (c : Nat) (rest : List Bool),
        reconnectWaits c (true :: rest) = 2 :: reconnectWaits 1 rest) ∧
    reconnectAttemptsMade 1 (List.replicate n false) = min n 10 ∧
    reconnectReports 0 (List.replicate n false) =
      (if 11 ≤ n then [maxAttemptsLine] else []) ∧
    reconnectReports 1 (List.replicate n false) =
      (if 10 ≤ n then [maxAttemptsLine] else []) := by
  have hw : reconnectWaits 0 (List.replicate n false) =
      (List.range (min n 10)).map (fun i => 2 ^ min (i + 1) 6) := by
    rw [reconnectWaits_replicate_false n 0 (by omega)]
    apply List.map_congr_left
    intro i _
    congr 2
    omega
  refine ⟨hw, ?_, ?_, ?_, ?_, ?_, ?_⟩
  · rw [hw, List.pairwise_map]
    exact (List.pairwise_lt_range _).imp
      (fun hab => Nat.pow_le_pow_right (by omega)
        (min_le_min (by omega) le_rfl))
  · rw [reconnectAttemptsMade_replicate_false n 0 (by omega)]
  · intro c rest
    rfl
  · rw [reconnectAttemptsMade_replicate_false n 1 (by omega)]
  · rw [reconnectReports_replicate_false n 0 (by omega)]
  · rw [reconnectReports_replicate_false n 1 (by omega)]

end Aivory
